import Mathlib

/-!
Shallow embedding of the `unifi-rs` client library (src/src/client.rs,
src/src/errors.rs, src/src/models/*.rs).

JSON documents are modelled as a `Json` value tree; a JSON number keeps the
distinction the `serde_json` lexer makes between integer tokens (dispatched to
`visit_i64`/`visit_u64`) and decimal/exponent tokens, which serde_json parses
to an `f64` by IEEE-754 round-to-nearest before handing the result to
`visit_f64`.  A decimal token is therefore carried as the double it parses
to, represented losslessly by that double's exact rational value: distinct
decimal spellings that round to the same double (such as 2.4 and
2.4000000000000001) are the same `Json` value, exactly as the program cannot
tell them apart, and equality of doubles coincides with equality of the
representing rationals.

Struct deserialization mirrors the semantics of `serde`'s derived
implementations: a struct decodes from a JSON object, unknown keys are
ignored, a missing field of type `Option<T>` (or an explicitly `null` one)
becomes `none`, a `#[serde(default)]` collection becomes empty when the key is
absent, and a missing required field is an error.
-/

/-- A JSON number token: `int` for integer literals (serde_json dispatches
these to `visit_i64`/`visit_u64`), `dec` for decimal or exponent literals,
which serde_json parses lossily to an IEEE-754 double and dispatches to
`visit_f64`; the payload of `dec` is that parsed double, represented by its
exact rational value (every finite double is an exact rational). -/
inductive JNum where
  | int (i : Int)
  | dec (q : Rat)
deriving DecidableEq

/-- A JSON value. Objects are ordered association lists, as produced by the
serde_json parser; the repository's inputs carry no duplicate keys. -/
inductive Json where
  | null
  | bool (b : Bool)
  | num (n : JNum)
  | str (s : String)
  | arr (xs : List Json)
  | obj (fs : List (String × Json))

deriving instance DecidableEq for Except

/-- Success test for an `Except` result (Rust `Result::is_ok`). -/
def exceptOk {ε α : Type} : Except ε α → Bool
  | .ok _ => true
  | .error _ => false

/-- Underlying field list of a JSON object; any other shape is a serde
"invalid type" error. -/
def Json.fields : Json → Except String (List (String × Json))
  | .obj fs => .ok fs
  | _ => .error "invalid type: expected a map"

/-- Decode a required struct field: serde's derived visitor errors when the
key is absent. -/
def reqField {α : Type} (fs : List (String × Json)) (key : String)
    (d : Json → Except String α) : Except String α :=
  match fs.lookup key with
  | some v => d v
  | none => .error ("missing field " ++ key)

/-- Decode an `Option<T>` struct field: serde's derive yields `None` both when
the key is absent and when its value is `null`. -/
def optField {α : Type} (fs : List (String × Json)) (key : String)
    (d : Json → Except String α) : Except String (Option α) :=
  match fs.lookup key with
  | some .null => .ok none
  | some v => (d v).map some
  | none => .ok none

/-- Decode a `#[serde(default)] Vec<T>` struct field: absent key means the
empty vector. -/
def defListField {α : Type} (fs : List (String × Json)) (key : String)
    (d : Json → Except String (List α)) : Except String (List α) :=
  match fs.lookup key with
  | some v => d v
  | none => .ok []

/-- Decode a JSON string. -/
def decodeString : Json → Except String String
  | .str s => .ok s
  | _ => .error "invalid type: expected a string"

/-- Decode a JSON boolean. -/
def decodeBool : Json → Except String Bool
  | .bool b => .ok b
  | _ => .error "invalid type: expected a boolean"

/-- Decode a Rust `i32`: an integer token within the `i32` range. -/
def decodeI32 : Json → Except String Int
  | .num (.int i) =>
      if -2147483648 ≤ i ∧ i ≤ 2147483647 then .ok i
      else .error "invalid value: integer out of range for i32"
  | _ => .error "invalid type: expected i32"

/-- Decode a Rust `i64`: an integer token within the `i64` range. -/
def decodeI64 : Json → Except String Int
  | .num (.int i) =>
      if -9223372036854775808 ≤ i ∧ i ≤ 9223372036854775807 then .ok i
      else .error "invalid value: integer out of range for i64"
  | _ => .error "invalid type: expected i64"

/-- Decode a Rust `u16`: a non-negative integer token below 2^16. -/
def decodeU16 : Json → Except String Nat
  | .num (.int i) =>
      if 0 ≤ i ∧ i ≤ 65535 then .ok i.toNat
      else .error "invalid value: integer out of range for u16"
  | _ => .error "invalid type: expected u16"

/-- Decode a Rust `f64`: serde_json feeds both integer and decimal tokens to
an `f64` target. The value is kept as an exact rational. -/
def decodeF64 : Json → Except String Rat
  | .num (.int i) => .ok (i : Rat)
  | .num (.dec q) => .ok q
  | _ => .error "invalid type: expected f64"

/-- Decode a JSON array element-wise (`Vec<T>`). -/
def decodeArray {α : Type} (d : Json → Except String α) :
    Json → Except String (List α)
  | .arr xs => xs.mapM d
  | _ => .error "invalid type: expected an array"

/-- Split a character list at every occurrence of a separator (the separator
is dropped); structural-recursion analogue of splitting a string on a
one-character separator. -/
def splitOnChar (sep : Char) : List Char → List (List Char)
  | [] => [[]]
  | c :: rest =>
      match splitOnChar sep rest with
      | [] => if c = sep then [[], []] else [[c]]
      | g :: gs => if c = sep then [] :: g :: gs else (c :: g) :: gs

/-- Hexadecimal digit test (both cases), as accepted by the `uuid` crate. -/
def isHexDigit (c : Char) : Bool :=
  c.isDigit || (97 ≤ c.toNat && c.toNat ≤ 102) || (65 ≤ c.toNat && c.toNat ≤ 70)

/-- A 128-bit identifier (`uuid::Uuid`), kept as its 32 lowercase hex
digits. -/
structure Uuid where
  hex : String
deriving DecidableEq

/-- Parsing of a hyphenated UUID string, the wire form the repository's
fixtures use; models `uuid::Uuid`'s serde string deserialization restricted
to the standard 8-4-4-4-12 form (the crate's braced/urn forms never occur
in this API's payloads). Parsing normalizes to lowercase, as the crate's
128-bit representation does. -/
def Uuid.parse (s : String) : Except String Uuid :=
  match splitOnChar '-' s.toList with
  | [a, b, c, d, e] =>
      if a.length = 8 ∧ b.length = 4 ∧ c.length = 4 ∧ d.length = 4 ∧
         e.length = 12 ∧ (a ++ b ++ c ++ d ++ e).all isHexDigit then
        .ok ⟨String.mk ((a ++ b ++ c ++ d ++ e).map Char.toLower)⟩
      else .error "UUID parsing failed"
  | _ => .error "UUID parsing failed"

/-- `Display` for `Uuid`: lowercase hyphenated form, used by the client when
interpolating identifiers into request paths. -/
def Uuid.toString (u : Uuid) : String :=
  let cs := u.hex.toList
  String.mk (cs.take 8) ++ "-" ++ String.mk ((cs.drop 8).take 4) ++ "-" ++
    String.mk ((cs.drop 12).take 4) ++ "-" ++ String.mk ((cs.drop 16).take 4) ++
    "-" ++ String.mk (cs.drop 20)

/-- Decode a `Uuid` struct field: the serde implementation visits a string. -/
def decodeUuid : Json → Except String Uuid
  | .str s => Uuid.parse s
  | _ => .error "invalid type: expected a UUID string"

/-- A parsed `chrono::DateTime<Utc>` wire value, kept as its parsed RFC 3339
components (the claims under verification never compare instants across
distinct offsets). -/
structure DateTime where
  year : Nat
  month : Nat
  day : Nat
  hour : Nat
  minute : Nat
  second : Nat
  nanos : Nat
deriving DecidableEq

/-- Digits-only decimal reading for date/time components. -/
def parseDigits (cs : List Char) : Option Nat :=
  if cs.length ≠ 0 ∧ cs.all Char.isDigit then
    some (cs.foldl (fun n c => 10 * n + (c.toNat - 48)) 0)
  else none

/-- Gregorian leap-year rule, as `chrono` validates dates. -/
def isLeapYear (y : Nat) : Bool :=
  y % 4 = 0 && (y % 100 ≠ 0 || y % 400 = 0)

/-- Days in a month of a given year. -/
def daysInMonth (y m : Nat) : Nat :=
  if m = 2 then (if isLeapYear y then 29 else 28)
  else if m = 4 ∨ m = 6 ∨ m = 9 ∨ m = 11 then 30
  else 31

/-- Fractional seconds to nanoseconds: at most nine digits, right-padded. -/
def fracToNanos (cs : List Char) : Option Nat :=
  if cs.length ≤ 9 then
    parseDigits cs |>.map (fun n => n * 10 ^ (9 - cs.length))
  else none

/-- Validation and assembly step shared by the fractional and whole-second
forms of the RFC 3339 parser: checks component widths and calendar/clock
ranges and builds the `DateTime`. -/
def DateTime.check (ys ms dds hs mins ss : List Char) (fr : Option (List Char)) :
    Except String DateTime :=
  match parseDigits ys, parseDigits ms, parseDigits dds, parseDigits hs,
        parseDigits mins, parseDigits ss,
        (match fr with | none => some 0 | some f => fracToNanos f) with
  | some y, some mo, some d, some h, some mi, some sec, some ns =>
      if ys.length = 4 ∧ ms.length = 2 ∧ dds.length = 2 ∧ hs.length = 2 ∧
         mins.length = 2 ∧ ss.length = 2 ∧
         1 ≤ mo ∧ mo ≤ 12 ∧ 1 ≤ d ∧ d ≤ daysInMonth y mo ∧
         h ≤ 23 ∧ mi ≤ 59 ∧ sec ≤ 59 then
        .ok ⟨y, mo, d, h, mi, sec, ns⟩
      else .error "invalid date-time"
  | _, _, _, _, _, _, _ => .error "invalid date-time"

/-- Parsing of an RFC 3339 timestamp in the UTC `Z` form
`YYYY-MM-DDTHH:MM:SS(.fraction)?Z`, with calendar and clock range checks;
models `chrono::DateTime<Utc>`'s serde deserialization restricted to the
`Z`-suffixed form this API serves (numeric-offset forms never occur in its
payloads). -/
def DateTime.parse (s : String) : Except String DateTime :=
  match splitOnChar 'T' s.toList with
  | [ds, ts] =>
      (match splitOnChar '-' ds, ts.getLast?, splitOnChar ':' ts.dropLast with
       | [ys, ms, dds], some 'Z', [hs, mins, secPart] =>
           (match splitOnChar '.' secPart with
            | [ss] => DateTime.check ys ms dds hs mins ss none
            | [ss, fr] => DateTime.check ys ms dds hs mins ss (some fr)
            | _ => .error "invalid date-time")
       | _, _, _ => .error "invalid date-time")
  | _ => .error "invalid date-time"

/-- Decode a `DateTime<Utc>` struct field: the serde implementation visits a
string. -/
def decodeDateTime : Json → Except String DateTime
  | .str s => DateTime.parse s
  | _ => .error "invalid type: expected a date-time string"

/-! ### src/src/models/common.rs -/

/-- One slice of a server-side paginated collection (`Page<T>`,
src/src/models/common.rs). -/
structure Page (T : Type) where
  offset : Int
  limit : Int
  count : Int
  total_count : Int
  data : List T
deriving DecidableEq

/-- Derived deserializer for `Page<T>`: fields `offset`, `limit`, `count`,
`totalCount` (renamed), `data`; all required. -/
def Page.deserialize {T : Type} (dT : Json → Except String T) (j : Json) :
    Except String (Page T) := do
  let fs ← j.fields
  let offset ← reqField fs "offset" decodeI32
  let limit ← reqField fs "limit" decodeI32
  let count ← reqField fs "count" decodeI32
  let total_count ← reqField fs "totalCount" decodeI32
  let data ← reqField fs "data" (decodeArray dT)
  pure { offset := offset, limit := limit, count := count,
         total_count := total_count, data := data }

/-- `ApplicationInfo` (src/src/models/common.rs). -/
structure ApplicationInfo where
  application_version : String
deriving DecidableEq

/-- Derived deserializer for `ApplicationInfo` (camelCase renaming). -/
def ApplicationInfo.deserialize (j : Json) : Except String ApplicationInfo := do
  let fs ← j.fields
  let v ← reqField fs "applicationVersion" decodeString
  pure { application_version := v }

/-- `PortState` (src/src/models/common.rs), wire form UPPERCASE. -/
inductive PortState where
  | Up
  | Down
  | Unknown
deriving DecidableEq

/-- Derived deserializer for `PortState`. -/
def PortState.deserialize : Json → Except String PortState
  | .str "UP" => .ok .Up
  | .str "DOWN" => .ok .Down
  | .str "UNKNOWN" => .ok .Unknown
  | _ => .error "unknown variant for PortState"

/-- `ConnectorType` (src/src/models/common.rs), wire form is the variant
name verbatim. -/
inductive ConnectorType where
  | RJ45
  | SFP
  | SFPPLUS
  | SFP28
  | QSFP28
deriving DecidableEq

/-- Derived deserializer for `ConnectorType`. -/
def ConnectorType.deserialize : Json → Except String ConnectorType
  | .str "RJ45" => .ok .RJ45
  | .str "SFP" => .ok .SFP
  | .str "SFPPLUS" => .ok .SFPPLUS
  | .str "SFP28" => .ok .SFP28
  | .str "QSFP28" => .ok .QSFP28
  | _ => .error "unknown variant for ConnectorType"

/-- `WlanStandard` (src/src/models/common.rs) with its `802.11x` renames. -/
inductive WlanStandard where
  | IEEE802_11A
  | IEEE802_11B
  | IEEE802_11G
  | IEEE802_11N
  | IEEE802_11AC
  | IEEE802_11AX
  | IEEE802_11BE
deriving DecidableEq

/-- Derived deserializer for `WlanStandard`. -/
def WlanStandard.deserialize : Json → Except String WlanStandard
  | .str "802.11a" => .ok .IEEE802_11A
  | .str "802.11b" => .ok .IEEE802_11B
  | .str "802.11g" => .ok .IEEE802_11G
  | .str "802.11n" => .ok .IEEE802_11N
  | .str "802.11ac" => .ok .IEEE802_11AC
  | .str "802.11ax" => .ok .IEEE802_11AX
  | .str "802.11be" => .ok .IEEE802_11BE
  | _ => .error "unknown variant for WlanStandard"

/-- `FrequencyBand` (src/src/models/common.rs). -/
inductive FrequencyBand where
  | Band2_4GHz
  | Band5GHz
  | Band6GHz
  | Band60GHz
deriving DecidableEq

/-- Derived `Serialize` for `FrequencyBand`: each unit variant serializes as
its `#[serde(rename = ...)]` string. -/
def FrequencyBand.serialize : FrequencyBand → Json
  | .Band2_4GHz => .str "2.4"
  | .Band5GHz => .str "5"
  | .Band6GHz => .str "6"
  | .Band60GHz => .str "60"

/-- The exact rational value of the IEEE-754 double written `2.4` in the
source (0x1.3333333333333p+1, i.e. 5404319552844595 / 2^51): the `f64` that
`visit_f64` compares against, and what every decimal token rounding to it —
2.4 as well as, for example, 2.4000000000000001 — parses to. The doubles
written `5.0`, `6.0` and `60.0` are exactly 5, 6 and 60. -/
def f64Of2_4 : Rat := (5404319552844595 : Rat) / 2251799813685248

/-- The hand-written `Deserialize` visitor for `FrequencyBand`
(src/src/models/common.rs lines 67-134): `visit_str` accepts "2.4", "5",
"6", "60"; `visit_i64`/`visit_u64` accept 5, 6, 60; `visit_f64` compares the
incoming double against the doubles 2.4, 5.0, 6.0, 60.0; every other shape
or value is an error. -/
def FrequencyBand.deserialize : Json → Except String FrequencyBand
  | .str s =>
      if s = "2.4" then .ok .Band2_4GHz
      else if s = "5" then .ok .Band5GHz
      else if s = "6" then .ok .Band6GHz
      else if s = "60" then .ok .Band60GHz
      else .error "invalid frequency band"
  | .num (.int i) =>
      if i = 5 then .ok .Band5GHz
      else if i = 6 then .ok .Band6GHz
      else if i = 60 then .ok .Band60GHz
      else .error "invalid frequency band"
  | .num (.dec q) =>
      if q = f64Of2_4 then .ok .Band2_4GHz
      else if q = 5 then .ok .Band5GHz
      else if q = 6 then .ok .Band6GHz
      else if q = 60 then .ok .Band60GHz
      else .error "invalid frequency band"
  | _ => .error "invalid type for frequency band"



/-! ### src/src/models/site.rs -/

/-- `SiteOverview` (src/src/models/site.rs): `id` required, `name`
optional. -/
structure SiteOverview where
  id : Uuid
  name : Option String
deriving DecidableEq

/-- Derived deserializer for `SiteOverview`. -/
def SiteOverview.deserialize (j : Json) : Except String SiteOverview := do
  let fs ← j.fields
  let id ← reqField fs "id" decodeUuid
  let name ← optField fs "name" decodeString
  pure { id := id, name := name }

/-! ### src/src/models/device.rs -/

/-- `DeviceState` (src/src/models/device.rs), wire form UPPERCASE without
separators. -/
inductive DeviceState where
  | Online
  | Offline
  | PendingAdoption
  | Updating
  | GettingReady
  | Adopting
  | Deleting
  | ConnectionInterrupted
  | Isolated
deriving DecidableEq

/-- Derived deserializer for `DeviceState`. -/
def DeviceState.deserialize : Json → Except String DeviceState
  | .str "ONLINE" => .ok .Online
  | .str "OFFLINE" => .ok .Offline
  | .str "PENDINGADOPTION" => .ok .PendingAdoption
  | .str "UPDATING" => .ok .Updating
  | .str "GETTINGREADY" => .ok .GettingReady
  | .str "ADOPTING" => .ok .Adopting
  | .str "DELETING" => .ok .Deleting
  | .str "CONNECTIONINTERRUPTED" => .ok .ConnectionInterrupted
  | .str "ISOLATED" => .ok .Isolated
  | _ => .error "unknown variant for DeviceState"

/-- `DeviceOverview` (src/src/models/device.rs): every field required. -/
structure DeviceOverview where
  id : Uuid
  name : String
  model : String
  mac_address : String
  ip_address : String
  state : DeviceState
  features : List String
  interfaces : List String
deriving DecidableEq

/-- Derived deserializer for `DeviceOverview` (camelCase renaming). -/
def DeviceOverview.deserialize (j : Json) : Except String DeviceOverview := do
  let fs ← j.fields
  let id ← reqField fs "id" decodeUuid
  let name ← reqField fs "name" decodeString
  let model ← reqField fs "model" decodeString
  let mac_address ← reqField fs "macAddress" decodeString
  let ip_address ← reqField fs "ipAddress" decodeString
  let state ← reqField fs "state" DeviceState.deserialize
  let features ← reqField fs "features" (decodeArray decodeString)
  let interfaces ← reqField fs "interfaces" (decodeArray decodeString)
  pure { id := id, name := name, model := model, mac_address := mac_address,
         ip_address := ip_address, state := state, features := features,
         interfaces := interfaces }

/-- `EthernetPortOverview` (src/src/models/device.rs): every field
required. -/
structure EthernetPortOverview where
  idx : Int
  state : PortState
  connector : ConnectorType
  max_speed_mbps : Int
  speed_mbps : Int
deriving DecidableEq

/-- Derived deserializer for `EthernetPortOverview` (camelCase renaming). -/
def EthernetPortOverview.deserialize (j : Json) :
    Except String EthernetPortOverview := do
  let fs ← j.fields
  let idx ← reqField fs "idx" decodeI32
  let state ← reqField fs "state" PortState.deserialize
  let connector ← reqField fs "connector" ConnectorType.deserialize
  let max_speed_mbps ← reqField fs "maxSpeedMbps" decodeI32
  let speed_mbps ← reqField fs "speedMbps" decodeI32
  pure { idx := idx, state := state, connector := connector,
         max_speed_mbps := max_speed_mbps, speed_mbps := speed_mbps }

/-- `WirelessRadioOverview` (src/src/models/device.rs): all fields
optional. -/
structure WirelessRadioOverview where
  wlan_standard : Option WlanStandard
  frequency_ghz : Option FrequencyBand
  channel_width_mhz : Option Int
  channel : Option Int
deriving DecidableEq

/-- Derived deserializer for `WirelessRadioOverview`: `wlanStandard` and
`channel` are plain `Option` fields; `frequencyGHz` and `channelWidthMHz`
carry `#[serde(default)]` renames, with the same missing-key behaviour. -/
def WirelessRadioOverview.deserialize (j : Json) :
    Except String WirelessRadioOverview := do
  let fs ← j.fields
  let wlan_standard ← optField fs "wlanStandard" WlanStandard.deserialize
  let frequency_ghz ← optField fs "frequencyGHz" FrequencyBand.deserialize
  let channel_width_mhz ← optField fs "channelWidthMHz" decodeI32
  let channel ← optField fs "channel" decodeI32
  pure { wlan_standard := wlan_standard, frequency_ghz := frequency_ghz,
         channel_width_mhz := channel_width_mhz, channel := channel }

/-- `DevicePhysicalInterfaces` (src/src/models/device.rs lines 33-40): both
collections carry `#[serde(default)]`. -/
structure DevicePhysicalInterfaces where
  ports : List EthernetPortOverview
  radios : List WirelessRadioOverview
deriving DecidableEq

/-- Derived deserializer for `DevicePhysicalInterfaces`: a missing `ports`
or `radios` key defaults to the empty vector. -/
def DevicePhysicalInterfaces.deserialize (j : Json) :
    Except String DevicePhysicalInterfaces := do
  let fs ← j.fields
  let ports ← defListField fs "ports" (decodeArray EthernetPortOverview.deserialize)
  let radios ← defListField fs "radios" (decodeArray WirelessRadioOverview.deserialize)
  pure { ports := ports, radios := radios }

/-- `DeviceUplinkInterface` (src/src/models/device.rs). -/
structure DeviceUplinkInterface where
  device_id : Uuid
deriving DecidableEq

/-- Derived deserializer for `DeviceUplinkInterface`. -/
def DeviceUplinkInterface.deserialize (j : Json) :
    Except String DeviceUplinkInterface := do
  let fs ← j.fields
  let device_id ← reqField fs "deviceId" decodeUuid
  pure { device_id := device_id }

/-- `SwitchFeatureOverview` (src/src/models/device.rs): an empty struct. -/
structure SwitchFeatureOverview where
deriving DecidableEq

/-- Derived deserializer for `SwitchFeatureOverview`: accepts any JSON
object (unknown keys ignored). -/
def SwitchFeatureOverview.deserialize (j : Json) :
    Except String SwitchFeatureOverview := do
  let _ ← j.fields
  pure {}

/-- `AccessPointFeatureOverview` (src/src/models/device.rs): an empty
struct. -/
structure AccessPointFeatureOverview where
deriving DecidableEq

/-- Derived deserializer for `AccessPointFeatureOverview`. -/
def AccessPointFeatureOverview.deserialize (j : Json) :
    Except String AccessPointFeatureOverview := do
  let _ ← j.fields
  pure {}

/-- `DeviceFeatures` (src/src/models/device.rs): both sections optional. -/
structure DeviceFeatures where
  switching : Option SwitchFeatureOverview
  access_point : Option AccessPointFeatureOverview
deriving DecidableEq

/-- Derived deserializer for `DeviceFeatures` (camelCase renaming). -/
def DeviceFeatures.deserialize (j : Json) : Except String DeviceFeatures := do
  let fs ← j.fields
  let switching ← optField fs "switching" SwitchFeatureOverview.deserialize
  let access_point ← optField fs "accessPoint" AccessPointFeatureOverview.deserialize
  pure { switching := switching, access_point := access_point }

/-- `DeviceDetails` (src/src/models/device.rs lines 63-84): `id`, `name`,
`model`, `supported`, `macAddress`, `ipAddress`, `state`,
`firmwareVersion`, `firmwareUpdatable` and `configurationId` are required;
`adoptedAt` and `provisionedAt` are `Option`; `uplink`, `features` and
`interfaces` are `Option` with `#[serde(default)]`. -/
structure DeviceDetails where
  id : Uuid
  name : String
  model : String
  supported : Bool
  mac_address : String
  ip_address : String
  state : DeviceState
  firmware_version : String
  firmware_updatable : Bool
  adopted_at : Option DateTime
  provisioned_at : Option DateTime
  configuration_id : String
  uplink : Option DeviceUplinkInterface
  features : Option DeviceFeatures
  interfaces : Option DevicePhysicalInterfaces
deriving DecidableEq

/-- Derived deserializer for `DeviceDetails` (camelCase renaming). -/
def DeviceDetails.deserialize (j : Json) : Except String DeviceDetails := do
  let fs ← j.fields
  let id ← reqField fs "id" decodeUuid
  let name ← reqField fs "name" decodeString
  let model ← reqField fs "model" decodeString
  let supported ← reqField fs "supported" decodeBool
  let mac_address ← reqField fs "macAddress" decodeString
  let ip_address ← reqField fs "ipAddress" decodeString
  let state ← reqField fs "state" DeviceState.deserialize
  let firmware_version ← reqField fs "firmwareVersion" decodeString
  let firmware_updatable ← reqField fs "firmwareUpdatable" decodeBool
  let adopted_at ← optField fs "adoptedAt" decodeDateTime
  let provisioned_at ← optField fs "provisionedAt" decodeDateTime
  let configuration_id ← reqField fs "configurationId" decodeString
  let uplink ← optField fs "uplink" DeviceUplinkInterface.deserialize
  let features ← optField fs "features" DeviceFeatures.deserialize
  let interfaces ← optField fs "interfaces" DevicePhysicalInterfaces.deserialize
  pure { id := id, name := name, model := model, supported := supported,
         mac_address := mac_address, ip_address := ip_address, state := state,
         firmware_version := firmware_version,
         firmware_updatable := firmware_updatable, adopted_at := adopted_at,
         provisioned_at := provisioned_at, configuration_id := configuration_id,
         uplink := uplink, features := features, interfaces := interfaces }

/-! ### src/src/models/statistics.rs -/

/-- `DeviceUplinkStatistics` (src/src/models/statistics.rs): both rates
required. -/
structure DeviceUplinkStatistics where
  tx_rate_bps : Int
  rx_rate_bps : Int
deriving DecidableEq

/-- Derived deserializer for `DeviceUplinkStatistics`. -/
def DeviceUplinkStatistics.deserialize (j : Json) :
    Except String DeviceUplinkStatistics := do
  let fs ← j.fields
  let tx ← reqField fs "txRateBps" decodeI64
  let rx ← reqField fs "rxRateBps" decodeI64
  pure { tx_rate_bps := tx, rx_rate_bps := rx }

/-- `WirelessRadioStatistics` (src/src/models/statistics.rs): both fields
optional. -/
structure WirelessRadioStatistics where
  frequency_ghz : Option FrequencyBand
  tx_retries_pct : Option Rat
deriving DecidableEq

/-- Derived deserializer for `WirelessRadioStatistics`. -/
def WirelessRadioStatistics.deserialize (j : Json) :
    Except String WirelessRadioStatistics := do
  let fs ← j.fields
  let f ← optField fs "frequencyGHz" FrequencyBand.deserialize
  let t ← optField fs "txRetriesPct" decodeF64
  pure { frequency_ghz := f, tx_retries_pct := t }

/-- `DeviceInterfaceStatistics` (src/src/models/statistics.rs): `radios`
carries `#[serde(default)]`. -/
structure DeviceInterfaceStatistics where
  radios : List WirelessRadioStatistics
deriving DecidableEq

/-- Derived deserializer for `DeviceInterfaceStatistics`. -/
def DeviceInterfaceStatistics.deserialize (j : Json) :
    Except String DeviceInterfaceStatistics := do
  let fs ← j.fields
  let radios ← defListField fs "radios"
      (decodeArray WirelessRadioStatistics.deserialize)
  pure { radios := radios }

/-- `DeviceStatistics` (src/src/models/statistics.rs): uptime and both
heartbeats required, the remaining fields optional. -/
structure DeviceStatistics where
  uptime_sec : Int
  last_heartbeat_at : DateTime
  next_heartbeat_at : DateTime
  load_average_1min : Option Rat
  load_average_5min : Option Rat
  load_average_15min : Option Rat
  cpu_utilization_pct : Option Rat
  memory_utilization_pct : Option Rat
  uplink : Option DeviceUplinkStatistics
  interfaces : Option DeviceInterfaceStatistics
deriving DecidableEq

/-- Derived deserializer for `DeviceStatistics` (camelCase renaming plus the
explicit `loadAverageNMin` renames). -/
def DeviceStatistics.deserialize (j : Json) : Except String DeviceStatistics := do
  let fs ← j.fields
  let uptime ← reqField fs "uptimeSec" decodeI64
  let lhb ← reqField fs "lastHeartbeatAt" decodeDateTime
  let nhb ← reqField fs "nextHeartbeatAt" decodeDateTime
  let la1 ← optField fs "loadAverage1Min" decodeF64
  let la5 ← optField fs "loadAverage5Min" decodeF64
  let la15 ← optField fs "loadAverage15Min" decodeF64
  let cpu ← optField fs "cpuUtilizationPct" decodeF64
  let mem ← optField fs "memoryUtilizationPct" decodeF64
  let uplink ← optField fs "uplink" DeviceUplinkStatistics.deserialize
  let interfaces ← optField fs "interfaces" DeviceInterfaceStatistics.deserialize
  pure { uptime_sec := uptime, last_heartbeat_at := lhb,
         next_heartbeat_at := nhb, load_average_1min := la1,
         load_average_5min := la5, load_average_15min := la15,
         cpu_utilization_pct := cpu, memory_utilization_pct := mem,
         uplink := uplink, interfaces := interfaces }

/-! ### src/src/models/client.rs -/

/-- `BaseClientOverview` (src/src/models/client.rs): `id` and `connectedAt`
required; `name` optional; `ipAddress` optional with `#[serde(default)]`. -/
structure BaseClientOverview where
  id : Uuid
  name : Option String
  connected_at : DateTime
  ip_address : Option String
deriving DecidableEq

/-- Derived deserializer for `BaseClientOverview` (camelCase renaming). As a
`#[serde(flatten)]` target it reads its fields from the enclosing object's
map and ignores the keys it does not know. -/
def BaseClientOverview.deserialize (j : Json) :
    Except String BaseClientOverview := do
  let fs ← j.fields
  let id ← reqField fs "id" decodeUuid
  let name ← optField fs "name" decodeString
  let connected_at ← reqField fs "connectedAt" decodeDateTime
  let ip_address ← optField fs "ipAddress" decodeString
  pure { id := id, name := name, connected_at := connected_at,
         ip_address := ip_address }

/-- `WiredClientOverview` (src/src/models/client.rs): flattened base plus
required `macAddress` and `uplinkDeviceId`. -/
structure WiredClientOverview where
  base : BaseClientOverview
  mac_address : String
  uplink_device_id : Uuid
deriving DecidableEq

/-- Derived deserializer for `WiredClientOverview`: its own fields and the
flattened base fields are read from the same object. -/
def WiredClientOverview.deserialize (j : Json) :
    Except String WiredClientOverview := do
  let fs ← j.fields
  let base ← BaseClientOverview.deserialize j
  let mac ← reqField fs "macAddress" decodeString
  let up ← reqField fs "uplinkDeviceId" decodeUuid
  pure { base := base, mac_address := mac, uplink_device_id := up }

/-- `WirelessClientOverview` (src/src/models/client.rs): same shape as the
wired variant. -/
structure WirelessClientOverview where
  base : BaseClientOverview
  mac_address : String
  uplink_device_id : Uuid
deriving DecidableEq

/-- Derived deserializer for `WirelessClientOverview`. -/
def WirelessClientOverview.deserialize (j : Json) :
    Except String WirelessClientOverview := do
  let fs ← j.fields
  let base ← BaseClientOverview.deserialize j
  let mac ← reqField fs "macAddress" decodeString
  let up ← reqField fs "uplinkDeviceId" decodeUuid
  pure { base := base, mac_address := mac, uplink_device_id := up }

/-- `VpnClientOverview` (src/src/models/client.rs): only the flattened
base. -/
structure VpnClientOverview where
  base : BaseClientOverview
deriving DecidableEq

/-- Derived deserializer for `VpnClientOverview`. -/
def VpnClientOverview.deserialize (j : Json) :
    Except String VpnClientOverview := do
  let base ← BaseClientOverview.deserialize j
  pure { base := base }

/-- `TeleportClientOverview` (src/src/models/client.rs): only the flattened
base. -/
structure TeleportClientOverview where
  base : BaseClientOverview
deriving DecidableEq

/-- Derived deserializer for `TeleportClientOverview`. -/
def TeleportClientOverview.deserialize (j : Json) :
    Except String TeleportClientOverview := do
  let base ← BaseClientOverview.deserialize j
  pure { base := base }

/-- `ClientOverview` (src/src/models/client.rs lines 5-16): internally
tagged union on the `type` field with wire tags WIRED, WIRELESS, VPN,
TELEPORT. -/
inductive ClientOverview where
  | Wired (c : WiredClientOverview)
  | Wireless (c : WirelessClientOverview)
  | Vpn (c : VpnClientOverview)
  | Teleport (c : TeleportClientOverview)
deriving DecidableEq

/-- Derived deserializer for the internally tagged `ClientOverview`: the
`type` key selects the variant and the variant struct is decoded from the
remaining content of the same object. -/
def ClientOverview.deserialize (j : Json) : Except String ClientOverview := do
  let fs ← j.fields
  match fs.lookup "type" with
  | some (.str "WIRED") => (WiredClientOverview.deserialize j).map .Wired
  | some (.str "WIRELESS") => (WirelessClientOverview.deserialize j).map .Wireless
  | some (.str "VPN") => (VpnClientOverview.deserialize j).map .Vpn
  | some (.str "TELEPORT") => (TeleportClientOverview.deserialize j).map .Teleport
  | some _ => .error "unknown variant for type"
  | none => .error "missing field type"

/-! ### src/src/errors.rs and the wire error envelope -/

/-- The relevant constructors of `reqwest::Error` as the library observes
them: `decode` wraps a failed `Response::json` body decode, `builder` wraps
a transport-builder failure. -/
inductive ReqwestError where
  | decode (msg : String)
  | builder (msg : String)
deriving DecidableEq

/-- `UnifiError` (src/src/errors.rs lines 4-26): `Http` wraps an underlying
`reqwest::Error` (via `#[from]`), `Api` carries the server's status code
and message, `Url` wraps a URL parse failure, `Config` carries a
configuration message. -/
inductive UnifiError where
  | Http (e : ReqwestError)
  | Api (status_code : Nat) (message : String)
  | Url (e : String)
  | Config (msg : String)
deriving DecidableEq

/-- `ErrorResponse` (src/src/client.rs lines 306-311): the server's JSON
error envelope, field `statusCode` (renamed) a `u16` and `message` a
string. -/
structure ErrorResponse where
  status_code : Nat
  message : String
deriving DecidableEq

/-- Derived deserializer for `ErrorResponse`. -/
def ErrorResponse.deserialize (j : Json) : Except String ErrorResponse := do
  let fs ← j.fields
  let status_code ← reqField fs "statusCode" decodeU16
  let message ← reqField fs "message" decodeString
  pure { status_code := status_code, message := message }

/-! ### src/src/client.rs: connection builder -/

/-- A validated HTTP header value (`http::HeaderValue`). -/
structure HeaderValue where
  value : String
deriving DecidableEq

/-- Validity of a character inside a header value, byte-wise as
`HeaderValue::from_str` checks: horizontal tab, or any byte that is neither
a control byte below 0x20 nor DEL (bytes of multi-byte UTF-8 characters are
all at least 0x80 and therefore acceptable). -/
def isValidHeaderChar (c : Char) : Bool :=
  c.toNat = 9 || (32 ≤ c.toNat && c.toNat ≠ 127)

/-- Validity of a whole string as a header value. -/
def isValidHeaderString (s : String) : Bool :=
  s.toList.all isValidHeaderChar

/-- `HeaderValue::from_str`, with the error rendered through `to_string()`
as `build` does. -/
def HeaderValue.from_str (s : String) : Except String HeaderValue :=
  if isValidHeaderString s then .ok ⟨s⟩
  else .error "failed to parse header value"

/-- The configured state of a `reqwest::Client` as this library uses it:
the default headers installed by the builder and the
`danger_accept_invalid_certs` flag. Building the transport itself is
modelled as infallible (it fails only on TLS-backend initialisation,
outside this library). -/
structure ReqwestClient where
  default_headers : List (String × HeaderValue)
  accept_invalid_certs : Bool
deriving DecidableEq

/-- `UnifiClient` (src/src/client.rs lines 60-64). -/
structure UnifiClient where
  client : ReqwestClient
  base_url : String
deriving DecidableEq

/-- `UnifiClientBuilder` (src/src/client.rs lines 11-15): state after
`new(base_url)` and any sequence of `api_key`/`verify_ssl` calls (each
setter overwrites its field; `api_key` starts unset and `verify_ssl`
defaults to `true`). -/
structure UnifiClientBuilder where
  base_url : String
  api_key : Option String
  verify_ssl : Bool
deriving DecidableEq

/-- `UnifiClientBuilder::new` (src/src/client.rs lines 18-24). -/
def UnifiClientBuilder.new (base_url : String) : UnifiClientBuilder :=
  { base_url := base_url, api_key := none, verify_ssl := true }

/-- `UnifiClientBuilder::api_key` (src/src/client.rs lines 26-29). -/
def UnifiClientBuilder.with_api_key (b : UnifiClientBuilder) (k : String) :
    UnifiClientBuilder :=
  { b with api_key := some k }

/-- `UnifiClientBuilder::verify_ssl` (src/src/client.rs lines 31-34). -/
def UnifiClientBuilder.with_verify_ssl (b : UnifiClientBuilder) (v : Bool) :
    UnifiClientBuilder :=
  { b with verify_ssl := v }

/-- `UnifiClientBuilder::build` (src/src/client.rs lines 36-57): an unset
API key is a `Config` error; a key `HeaderValue::from_str` rejects is a
`Config` error carrying the rendered parse error; otherwise the transport
is configured with the `X-API-KEY` default header and the certificate
flag, and the handle is returned. -/
def UnifiClientBuilder.build (b : UnifiClientBuilder) :
    Except UnifiError UnifiClient :=
  match b.api_key with
  | none => .error (.Config "API key is required")
  | some key =>
      match HeaderValue.from_str key with
      | .error e => .error (.Config e)
      | .ok hv =>
          .ok { client := { default_headers := [("X-API-KEY", hv)],
                            accept_invalid_certs := !b.verify_ssl },
                base_url := b.base_url }

/-! ### src/src/client.rs: requests and responses -/

/-- HTTP method of an issued request. -/
inductive HttpMethod where
  | GET
  | POST
deriving DecidableEq

/-- The single HTTP request an operation issues: its method, the formatted
URL, the attached query pairs, and the JSON body if any. -/
structure Request where
  method : HttpMethod
  url : String
  query : List (String × Int)
  body : Option Json

/-- The transport's answer to a request: its status code and the JSON
reading of its body (requests whose send itself fails surface the
transport error before any of the branching modelled here). -/
structure HttpResponse where
  status : Nat
  body : Json

/-- `StatusCode::is_success`: the 2xx range. -/
def isSuccessStatus (s : Nat) : Bool :=
  200 ≤ s && s ≤ 299

/-- `DeviceAction` (src/src/client.rs lines 301-304). -/
structure DeviceAction where
  action : String
deriving DecidableEq

/-- Derived `Serialize` for `DeviceAction`. -/
def DeviceAction.serialize (a : DeviceAction) : Json :=
  .obj [("action", .str a.action)]

/-- The request built by `UnifiClient::list_sites` (src/src/client.rs lines
77-91): GET `{base_url}/v1/sites` with `offset` defaulting to 0 and
`limit` defaulting to 25. -/
def UnifiClient.list_sites_request (c : UnifiClient)
    (offset limit : Option Int) : Request :=
  { method := .GET, url := c.base_url ++ "/v1/sites",
    query := [("offset", offset.getD 0), ("limit", limit.getD 25)],
    body := none }

/-- The response mapping of `UnifiClient::list_sites` (src/src/client.rs
lines 93-101): success decodes a `Page<SiteOverview>`, non-success decodes
the error envelope into an `Api` error, and either decode failure becomes
the `Http`-wrapped decode error via `?`. -/
def UnifiClient.list_sites_response (resp : HttpResponse) :
    Except UnifiError (Page SiteOverview) :=
  if isSuccessStatus resp.status then
    match Page.deserialize SiteOverview.deserialize resp.body with
    | .ok page => .ok page
    | .error e => .error (.Http (.decode e))
  else
    match ErrorResponse.deserialize resp.body with
    | .ok err => .error (.Api err.status_code err.message)
    | .error e => .error (.Http (.decode e))

/-- The request built by `UnifiClient::list_devices` (src/src/client.rs
lines 115-130). -/
def UnifiClient.list_devices_request (c : UnifiClient) (site_id : Uuid)
    (offset limit : Option Int) : Request :=
  { method := .GET,
    url := c.base_url ++ "/v1/sites/" ++ site_id.toString ++ "/devices",
    query := [("offset", offset.getD 0), ("limit", limit.getD 25)],
    body := none }

/-- The response mapping of `UnifiClient::list_devices` (src/src/client.rs
lines 132-140). -/
def UnifiClient.list_devices_response (resp : HttpResponse) :
    Except UnifiError (Page DeviceOverview) :=
  if isSuccessStatus resp.status then
    match Page.deserialize DeviceOverview.deserialize resp.body with
    | .ok page => .ok page
    | .error e => .error (.Http (.decode e))
  else
    match ErrorResponse.deserialize resp.body with
    | .ok err => .error (.Api err.status_code err.message)
    | .error e => .error (.Http (.decode e))

/-- The request built by `UnifiClient::get_device_details`
(src/src/client.rs lines 153-162). -/
def UnifiClient.get_device_details_request (c : UnifiClient)
    (site_id device_id : Uuid) : Request :=
  { method := .GET,
    url := c.base_url ++ "/v1/sites/" ++ site_id.toString ++ "/devices/" ++
           device_id.toString,
    query := [], body := none }

/-- The response mapping of `UnifiClient::get_device_details`
(src/src/client.rs lines 164-172). -/
def UnifiClient.get_device_details_response (resp : HttpResponse) :
    Except UnifiError DeviceDetails :=
  if isSuccessStatus resp.status then
    match DeviceDetails.deserialize resp.body with
    | .ok d => .ok d
    | .error e => .error (.Http (.decode e))
  else
    match ErrorResponse.deserialize resp.body with
    | .ok err => .error (.Api err.status_code err.message)
    | .error e => .error (.Http (.decode e))

/-- The request built by `UnifiClient::get_device_statistics`
(src/src/client.rs lines 185-194). -/
def UnifiClient.get_device_statistics_request (c : UnifiClient)
    (site_id device_id : Uuid) : Request :=
  { method := .GET,
    url := c.base_url ++ "/v1/sites/" ++ site_id.toString ++ "/devices/" ++
           device_id.toString ++ "/statistics/latest",
    query := [], body := none }

/-- The response mapping of `UnifiClient::get_device_statistics`
(src/src/client.rs lines 195-203). -/
def UnifiClient.get_device_statistics_response (resp : HttpResponse) :
    Except UnifiError DeviceStatistics :=
  if isSuccessStatus resp.status then
    match DeviceStatistics.deserialize resp.body with
    | .ok d => .ok d
    | .error e => .error (.Http (.decode e))
  else
    match ErrorResponse.deserialize resp.body with
    | .ok err => .error (.Api err.status_code err.message)
    | .error e => .error (.Http (.decode e))

/-- The request built by `UnifiClient::restart_device` (src/src/client.rs
lines 216-228): a POST to `{base}/v1/sites/{site}/devices/{device}/actions`
whose JSON body is the serialized `DeviceAction { action: "RESTART" }`. -/
def UnifiClient.restart_device_request (c : UnifiClient)
    (site_id device_id : Uuid) : Request :=
  { method := .POST,
    url := c.base_url ++ "/v1/sites/" ++ site_id.toString ++ "/devices/" ++
           device_id.toString ++ "/actions",
    query := [],
    body := some (DeviceAction.serialize { action := "RESTART" }) }

/-- The response mapping of `UnifiClient::restart_device`
(src/src/client.rs lines 230-238): any success status yields `Ok(())`
without reading the body; non-success reads the error envelope. -/
def UnifiClient.restart_device_response (resp : HttpResponse) :
    Except UnifiError Unit :=
  if isSuccessStatus resp.status then
    .ok ()
  else
    match ErrorResponse.deserialize resp.body with
    | .ok err => .error (.Api err.status_code err.message)
    | .error e => .error (.Http (.decode e))

/-- The request built by `UnifiClient::get_info` (src/src/client.rs lines
246-248). -/
def UnifiClient.get_info_request (c : UnifiClient) : Request :=
  { method := .GET, url := c.base_url ++ "/v1/info", query := [],
    body := none }

/-- The response mapping of `UnifiClient::get_info` (src/src/client.rs
lines 250-258). -/
def UnifiClient.get_info_response (resp : HttpResponse) :
    Except UnifiError ApplicationInfo :=
  if isSuccessStatus resp.status then
    match ApplicationInfo.deserialize resp.body with
    | .ok i => .ok i
    | .error e => .error (.Http (.decode e))
  else
    match ErrorResponse.deserialize resp.body with
    | .ok err => .error (.Api err.status_code err.message)
    | .error e => .error (.Http (.decode e))

/-- The request built by `UnifiClient::list_clients` (src/src/client.rs
lines 272-287). -/
def UnifiClient.list_clients_request (c : UnifiClient) (site_id : Uuid)
    (offset limit : Option Int) : Request :=
  { method := .GET,
    url := c.base_url ++ "/v1/sites/" ++ site_id.toString ++ "/clients",
    query := [("offset", offset.getD 0), ("limit", limit.getD 25)],
    body := none }

/-- The response mapping of `UnifiClient::list_clients` (src/src/client.rs
lines 289-297). -/
def UnifiClient.list_clients_response (resp : HttpResponse) :
    Except UnifiError (Page ClientOverview) :=
  if isSuccessStatus resp.status then
    match Page.deserialize ClientOverview.deserialize resp.body with
    | .ok page => .ok page
    | .error e => .error (.Http (.decode e))
  else
    match ErrorResponse.deserialize resp.body with
    | .ok err => .error (.Api err.status_code err.message)
    | .error e => .error (.Http (.decode e))

/-! ### Concrete fixtures used by the verification theorems -/

/-- A wire-form site/device identifier used in fixtures. -/
def sampleUuidStrA : String := "123e4567-e89b-12d3-a456-426614174000"

/-- A second wire-form identifier used in fixtures. -/
def sampleUuidStrB : String := "00000000-0000-0000-0000-000000000001"

/-- Parsed form of `sampleUuidStrA`. -/
def uuidValA : Uuid := ⟨"123e4567e89b12d3a456426614174000"⟩

/-- Parsed form of `sampleUuidStrB`. -/
def uuidValB : Uuid := ⟨"00000000000000000000000000000001"⟩

/-- Parsed form of the fixture timestamp `2024-01-02T03:04:05Z`. -/
def dtVal : DateTime := ⟨2024, 1, 2, 3, 4, 5, 0⟩

/-- The ten required fields of a `DeviceDetails` body, with valid values. -/
def deviceDetailsRequiredFields : List (String × Json) :=
  [("id", .str sampleUuidStrA), ("name", .str "sw1"), ("model", .str "USW"),
   ("supported", .bool true), ("macAddress", .str "aa:bb"),
   ("ipAddress", .str "10.0.0.1"), ("state", .str "ONLINE"),
   ("firmwareVersion", .str "7.0"), ("firmwareUpdatable", .bool false),
   ("configurationId", .str "cfg1")]

/-- The `DeviceDetails` value the required-fields-only body decodes to. -/
def deviceDetailsExpected : DeviceDetails :=
  { id := uuidValA, name := "sw1", model := "USW", supported := true,
    mac_address := "aa:bb", ip_address := "10.0.0.1", state := .Online,
    firmware_version := "7.0", firmware_updatable := false,
    adopted_at := none, provisioned_at := none, configuration_id := "cfg1",
    uplink := none, features := none, interfaces := none }

/-- A Client Overview body tagged WIRED carrying the base fields plus
`macAddress` and `uplinkDeviceId`. -/
def wiredClientJson : Json :=
  .obj [("type", .str "WIRED"), ("id", .str sampleUuidStrA),
        ("name", .str "pc"), ("connectedAt", .str "2024-01-02T03:04:05Z"),
        ("ipAddress", .str "10.0.0.2"), ("macAddress", .str "aa:bb:cc"),
        ("uplinkDeviceId", .str sampleUuidStrB)]

/-- A Client Overview body tagged TELEPORT carrying only the required base
fields. -/
def teleportClientJson : Json :=
  .obj [("type", .str "TELEPORT"), ("id", .str sampleUuidStrA),
        ("connectedAt", .str "2024-01-02T03:04:05Z")]

/-- The spec's sample error envelope body. -/
def envelopeJson : Json :=
  .obj [("statusCode", .num (.int 401)), ("message", .str "Unauthorized access")]

/-- A connection handle fixture. -/
def clientFixture : UnifiClient :=
  { client := { default_headers := [("X-API-KEY", ⟨"k"⟩)],
                accept_invalid_certs := false },
    base_url := "https://unifi.local" }

/-! ### Claim theorems -/

/-- C2 counterexample: the claim asserts that every configuration whose API
key was set to a non-empty string builds successfully, but the non-empty key
consisting of a newline cannot be encoded as a header value and `build()`
fails with a Configuration error. -/
theorem build_nonempty_key_counterexample :
    ("\n" : String) ≠ "" ∧
    ((UnifiClientBuilder.new "https://unifi.local").with_api_key "\n").build =
      .error (.Config "failed to parse header value") := by
  decide

/-- C2 (amended): `build()` fails with `Config "API key is required"` when
no API key was set; fails with the `Config`-wrapped header parse error when
the key is set but not encodable as a header value; and succeeds when the
key is set, non-empty and header-encodable. All of this is decided by the
builder state alone, with no network activity modelled. -/
theorem build_key_validation (b : UnifiClientBuilder) :
    (b.api_key = none → b.build = .error (.Config "API key is required")) ∧
    (∀ k, b.api_key = some k → isValidHeaderString k = false →
      b.build = .error (.Config "failed to parse header value")) ∧
    (∀ k, b.api_key = some k → k ≠ "" → isValidHeaderString k = true →
      exceptOk b.build = true) := by
  refine ⟨?_, ?_, ?_⟩
  · intro h
    simp [UnifiClientBuilder.build, h]
  · intro k hk hv
    simp [UnifiClientBuilder.build, hk, HeaderValue.from_str, hv]
  · intro k hk _ hv
    simp [UnifiClientBuilder.build, hk, HeaderValue.from_str, hv, exceptOk]

/-- Witness for C2: a configuration with the non-empty encodable key
`secret-key` builds successfully, and one with no key fails with the
required-key Configuration error. -/
theorem build_key_validation_witness :
    exceptOk ((UnifiClientBuilder.new "https://unifi.local").with_api_key
      "secret-key").build = true ∧
    (UnifiClientBuilder.new "https://unifi.local").build =
      .error (.Config "API key is required") :=
  ⟨(build_key_validation ((UnifiClientBuilder.new
      "https://unifi.local").with_api_key "secret-key")).2.2 "secret-key"
      (by decide) (by decide) (by decide),
   (build_key_validation (UnifiClientBuilder.new "https://unifi.local")).1
      (by decide)⟩

/-- C10: `build()` does not require the API key to be non-empty: the empty
string is an encodable header value and the corresponding configuration
builds successfully; and every Configuration error `build()` returns comes
either from an unset key or from a key that is not a valid header value. -/
theorem build_accepts_empty_key :
    exceptOk ((UnifiClientBuilder.new "https://unifi.local").with_api_key
      "").build = true ∧
    (∀ b : UnifiClientBuilder, ∀ m,
      b.build = .error (.Config m) →
      b.api_key = none ∨
        ∃ k, b.api_key = some k ∧ isValidHeaderString k = false) := by
  constructor
  · decide
  · intro b m hb
    cases hk : b.api_key with
    | none => exact .inl rfl
    | some k =>
        refine .inr ⟨k, rfl, ?_⟩
        by_contra hv
        simp only [Bool.not_eq_false] at hv
        simp [UnifiClientBuilder.build, hk, HeaderValue.from_str, hv] at hb

/-- Witness for C10: the key-less configuration produces a Configuration
error, and the theorem attributes it to the unset key. -/
theorem build_accepts_empty_key_witness :
    (UnifiClientBuilder.new "https://unifi.local").api_key = none ∨
    ∃ k, (UnifiClientBuilder.new "https://unifi.local").api_key = some k ∧
      isValidHeaderString k = false :=
  build_accepts_empty_key.2 (UnifiClientBuilder.new "https://unifi.local")
    "API key is required" (by decide)

/-- C3 counterexample: the claim asserts that every numeric literal other
than the integers 5, 6 and 60 fails deserialization, but the decimal
numeric literal 2.4 — which parses to the double `f64Of2_4` — is accepted
by the visitor's `visit_f64` arm and yields the 2.4 GHz value (as is every
other decimal spelling of that double, such as 2.4000000000000001). -/
theorem frequency_band_numeric_counterexample :
    FrequencyBand.deserialize (.num (.dec f64Of2_4)) = .ok .Band2_4GHz := by
  simp [FrequencyBand.deserialize]

/-- C3 (amended): serialize-then-deserialize is the identity on
`FrequencyBand`; the string literals "2.4", "5", "6", "60" and the integer
literals 5, 6, 60 each decode to the corresponding value; a decimal numeric
literal decodes to the corresponding value exactly when the double it
parses to is the double of 2.4, 5.0, 6.0 or 60.0 (so the decimal spellings
2.4 and 2.4000000000000001 both succeed); every other string, every other
integer, and every decimal parsing to any other double fails with an
error. -/
theorem frequency_band_round_trip :
    (∀ fb : FrequencyBand, FrequencyBand.deserialize fb.serialize = .ok fb) ∧
    (FrequencyBand.deserialize (.str "2.4") = .ok .Band2_4GHz ∧
     FrequencyBand.deserialize (.str "5") = .ok .Band5GHz ∧
     FrequencyBand.deserialize (.str "6") = .ok .Band6GHz ∧
     FrequencyBand.deserialize (.str "60") = .ok .Band60GHz) ∧
    (FrequencyBand.deserialize (.num (.int 5)) = .ok .Band5GHz ∧
     FrequencyBand.deserialize (.num (.int 6)) = .ok .Band6GHz ∧
     FrequencyBand.deserialize (.num (.int 60)) = .ok .Band60GHz) ∧
    (FrequencyBand.deserialize (.num (.dec f64Of2_4)) = .ok .Band2_4GHz ∧
     FrequencyBand.deserialize (.num (.dec 5)) = .ok .Band5GHz ∧
     FrequencyBand.deserialize (.num (.dec 6)) = .ok .Band6GHz ∧
     FrequencyBand.deserialize (.num (.dec 60)) = .ok .Band60GHz) ∧
    (∀ s : String, s ≠ "2.4" → s ≠ "5" → s ≠ "6" → s ≠ "60" →
      exceptOk (FrequencyBand.deserialize (.str s)) = false) ∧
    (∀ i : Int, i ≠ 5 → i ≠ 6 → i ≠ 60 →
      exceptOk (FrequencyBand.deserialize (.num (.int i))) = false) ∧
    (∀ q : Rat, q ≠ f64Of2_4 → q ≠ 5 → q ≠ 6 → q ≠ 60 →
      exceptOk (FrequencyBand.deserialize (.num (.dec q))) = false) := by
  refine ⟨?_, ?_, ?_, ?_, ?_, ?_, ?_⟩
  · intro fb
    cases fb <;> decide
  · refine ⟨?_, ?_, ?_, ?_⟩ <;> decide
  · refine ⟨?_, ?_, ?_⟩ <;> decide
  · refine ⟨?_, ?_, ?_, ?_⟩ <;> norm_num [FrequencyBand.deserialize, f64Of2_4]
  · intro s h1 h2 h3 h4
    simp [FrequencyBand.deserialize, h1, h2, h3, h4, exceptOk]
  · intro i h1 h2 h3
    simp [FrequencyBand.deserialize, h1, h2, h3, exceptOk]
  · intro q h1 h2 h3 h4
    simp [FrequencyBand.deserialize, h1, h2, h3, h4, exceptOk]

/-- Witness for C3: the string "7", the integer 7 and the decimal 7.5 (a
double exactly, and not the double of 2.4, 5.0, 6.0 or 60.0) all fail
frequency-band deserialization. -/
theorem frequency_band_round_trip_witness :
    exceptOk (FrequencyBand.deserialize (.str "7")) = false ∧
    exceptOk (FrequencyBand.deserialize (.num (.int 7))) = false ∧
    exceptOk (FrequencyBand.deserialize (.num (.dec (7.5 : Rat)))) = false :=
  ⟨frequency_band_round_trip.2.2.2.2.1 "7" (by decide) (by decide)
      (by decide) (by decide),
   frequency_band_round_trip.2.2.2.2.2.1 7 (by decide) (by decide) (by decide),
   frequency_band_round_trip.2.2.2.2.2.2 (7.5 : Rat) (by norm_num [f64Of2_4])
      (by norm_num) (by norm_num) (by norm_num)⟩

/-- C4 counterexample: the claim asserts that a Device Details object
containing only the identifier deserializes successfully, but `name` (like
the other nine non-`Option` fields) is required and its absence is a
missing-field error. -/
theorem device_details_missing_name_counterexample :
    DeviceDetails.deserialize (.obj [("id", .str sampleUuidStrA)]) =
      .error "missing field name" := by
  decide

/-- C4 (amended): for a Device Details JSON object, the fields `id`,
`name`, `model`, `supported`, `macAddress`, `ipAddress`, `state`,
`firmwareVersion`, `firmwareUpdatable` and `configurationId` are required —
a body carrying exactly these decodes successfully, and dropping any one of
them fails — while `adoptedAt`, `provisionedAt`, `uplink`, `features` and
`interfaces` may be absent without error. -/
theorem device_details_field_optionality :
    DeviceDetails.deserialize (.obj deviceDetailsRequiredFields) =
      .ok deviceDetailsExpected ∧
    exceptOk (DeviceDetails.deserialize (.obj
      (deviceDetailsRequiredFields.filter (fun p => p.1 ≠ "id")))) = false ∧
    exceptOk (DeviceDetails.deserialize (.obj
      (deviceDetailsRequiredFields.filter (fun p => p.1 ≠ "name")))) = false ∧
    exceptOk (DeviceDetails.deserialize (.obj
      (deviceDetailsRequiredFields.filter (fun p => p.1 ≠ "model")))) = false ∧
    exceptOk (DeviceDetails.deserialize (.obj
      (deviceDetailsRequiredFields.filter (fun p => p.1 ≠ "supported")))) = false ∧
    exceptOk (DeviceDetails.deserialize (.obj
      (deviceDetailsRequiredFields.filter (fun p => p.1 ≠ "macAddress")))) = false ∧
    exceptOk (DeviceDetails.deserialize (.obj
      (deviceDetailsRequiredFields.filter (fun p => p.1 ≠ "ipAddress")))) = false ∧
    exceptOk (DeviceDetails.deserialize (.obj
      (deviceDetailsRequiredFields.filter (fun p => p.1 ≠ "state")))) = false ∧
    exceptOk (DeviceDetails.deserialize (.obj
      (deviceDetailsRequiredFields.filter (fun p => p.1 ≠ "firmwareVersion")))) = false ∧
    exceptOk (DeviceDetails.deserialize (.obj
      (deviceDetailsRequiredFields.filter (fun p => p.1 ≠ "firmwareUpdatable")))) = false ∧
    exceptOk (DeviceDetails.deserialize (.obj
      (deviceDetailsRequiredFields.filter (fun p => p.1 ≠ "configurationId")))) = false := by
  decide

/-- C5 counterexample: the claim asserts that every deserialized `Page`
has `count` equal to the length of `data`, but a body whose `count` is 1
and whose `data` is empty deserializes successfully with the mismatch
preserved. -/
theorem page_count_mismatch_counterexample :
    Page.deserialize SiteOverview.deserialize
      (.obj [("offset", .num (.int 0)), ("limit", .num (.int 25)),
             ("count", .num (.int 1)), ("totalCount", .num (.int 1)),
             ("data", .arr [])]) =
      .ok { offset := 0, limit := 25, count := 1, total_count := 1,
            data := ([] : List SiteOverview) } ∧
    (1 : Int) ≠ (([] : List SiteOverview).length : Int) := by
  decide

/-- C5 (amended): `Page` deserialization copies the body's `count` field
verbatim — for any in-range `count` and `totalCount` values it succeeds on
an empty `data` array with exactly those values, performing no client-side
check that `count` equals the length of `data`. -/
theorem page_count_verbatim (c tc : Int)
    (hc1 : -2147483648 ≤ c) (hc2 : c ≤ 2147483647)
    (ht1 : -2147483648 ≤ tc) (ht2 : tc ≤ 2147483647) :
    Page.deserialize SiteOverview.deserialize
      (.obj [("offset", .num (.int 0)), ("limit", .num (.int 25)),
             ("count", .num (.int c)), ("totalCount", .num (.int tc)),
             ("data", .arr [])]) =
      .ok { offset := 0, limit := 25, count := c, total_count := tc,
            data := ([] : List SiteOverview) } := by
  simp [Page.deserialize, Json.fields, reqField, List.lookup, decodeI32,
        decodeArray, hc1, hc2, ht1, ht2, Except.bind, bind, Except.map,
        Functor.map, List.mapM, List.mapM.loop, pure, Except.pure]

/-- Witness for C5: the amended statement evaluated at `count` 3 and
`totalCount` 9 over an empty items array. -/
theorem page_count_verbatim_witness :
    Page.deserialize SiteOverview.deserialize
      (.obj [("offset", .num (.int 0)), ("limit", .num (.int 25)),
             ("count", .num (.int 3)), ("totalCount", .num (.int 9)),
             ("data", .arr [])]) =
      .ok { offset := 0, limit := 25, count := 3, total_count := 9,
            data := ([] : List SiteOverview) } :=
  page_count_verbatim 3 9 (by decide) (by decide) (by decide) (by decide)

/-- C6: in the requests built by `list_sites`, `list_devices` and
`list_clients`, an omitted `offset` becomes the query value 0, an omitted
`limit` becomes 25, and a supplied value is passed through exactly. -/
theorem pagination_defaults (c : UnifiClient) (site : Uuid)
    (o l : Option Int) (v : Int) :
    ((c.list_sites_request none l).query.lookup "offset" = some 0) ∧
    ((c.list_sites_request o none).query.lookup "limit" = some 25) ∧
    ((c.list_sites_request (some v) l).query.lookup "offset" = some v) ∧
    ((c.list_sites_request o (some v)).query.lookup "limit" = some v) ∧
    ((c.list_devices_request site none l).query.lookup "offset" = some 0) ∧
    ((c.list_devices_request site o none).query.lookup "limit" = some 25) ∧
    ((c.list_devices_request site (some v) l).query.lookup "offset" = some v) ∧
    ((c.list_devices_request site o (some v)).query.lookup "limit" = some v) ∧
    ((c.list_clients_request site none l).query.lookup "offset" = some 0) ∧
    ((c.list_clients_request site o none).query.lookup "limit" = some 25) ∧
    ((c.list_clients_request site (some v) l).query.lookup "offset" = some v) ∧
    ((c.list_clients_request site o (some v)).query.lookup "limit" = some v) := by
  refine ⟨?_, ?_, ?_, ?_, ?_, ?_, ?_, ?_, ?_, ?_, ?_, ?_⟩ <;>
    simp [UnifiClient.list_sites_request, UnifiClient.list_devices_request,
          UnifiClient.list_clients_request, List.lookup]

/-- C7: a Client Overview body tagged WIRED with the base fields plus
`macAddress` and `uplinkDeviceId` decodes to the Wired variant, and a body
tagged TELEPORT carrying only the base fields decodes to the Teleport
variant without `macAddress` or `uplinkDeviceId`. -/
theorem client_overview_tagged_decoding :
    ClientOverview.deserialize wiredClientJson =
      .ok (.Wired { base := { id := uuidValA, name := some "pc",
                              connected_at := dtVal,
                              ip_address := some "10.0.0.2" },
                    mac_address := "aa:bb:cc",
                    uplink_device_id := uuidValB }) ∧
    ClientOverview.deserialize teleportClientJson =
      .ok (.Teleport { base := { id := uuidValA, name := none,
                                 connected_at := dtVal,
                                 ip_address := none } }) := by
  decide

/-- C8: a Device Details body whose required fields are present and which
carries `features: {}` and `interfaces: {ports: [], radios: []}` decodes
successfully with empty port and radio collections; and inside
`interfaces`, an absent `ports` or `radios` key defaults to the empty
collection instead of failing. -/
theorem device_details_empty_collections :
    DeviceDetails.deserialize (.obj (deviceDetailsRequiredFields ++
        [("features", .obj []),
         ("interfaces", .obj [("ports", .arr []), ("radios", .arr [])])])) =
      .ok { deviceDetailsExpected with
            features := some { switching := none, access_point := none },
            interfaces := some { ports := [], radios := [] } } ∧
    DevicePhysicalInterfaces.deserialize (.obj []) =
      .ok { ports := [], radios := [] } ∧
    DevicePhysicalInterfaces.deserialize (.obj [("radios", .arr [])]) =
      .ok { ports := [], radios := [] } ∧
    DevicePhysicalInterfaces.deserialize (.obj [("ports", .arr [])]) =
      .ok { ports := [], radios := [] } := by
  decide

/-- C9: `restart_device` issues a single POST request to
`{base}/v1/sites/{site}/devices/{device}/actions` whose JSON body is
`{"action": "RESTART"}` and carries no query parameters, and every
success-status response maps to `Ok(())` with no result value. -/
theorem restart_device_contract (c : UnifiClient) (site device : Uuid)
    (resp : HttpResponse) (h : isSuccessStatus resp.status = true) :
    (c.restart_device_request site device).method = .POST ∧
    (c.restart_device_request site device).url =
      c.base_url ++ "/v1/sites/" ++ site.toString ++ "/devices/" ++
        device.toString ++ "/actions" ∧
    (c.restart_device_request site device).query = [] ∧
    (c.restart_device_request site device).body =
      some (.obj [("action", .str "RESTART")]) ∧
    UnifiClient.restart_device_response resp = .ok () := by
  refine ⟨rfl, rfl, rfl, rfl, ?_⟩
  simp [UnifiClient.restart_device_response, h]

/-- Witness for C9: the contract evaluated for the fixture handle and
identifiers against a 200 response. -/
theorem restart_device_contract_witness :
    isSuccessStatus 200 = true ∧
    UnifiClient.restart_device_response { status := 200, body := .null } =
      .ok () ∧
    (clientFixture.restart_device_request uuidValA uuidValB).body =
      some (.obj [("action", .str "RESTART")]) :=
  ⟨by decide,
   (restart_device_contract clientFixture uuidValA uuidValB
      { status := 200, body := .null } (by decide)).2.2.2.2,
   (restart_device_contract clientFixture uuidValA uuidValB
      { status := 200, body := .null } (by decide)).2.2.2.1⟩

/-- C1: for each of the seven Resource Client operations, a response with
a non-success status whose body decodes as the Error Response envelope
fails with an `Api` error carrying exactly the envelope's status code and
message; a non-success response whose body does not decode as the envelope
fails with the error wrapping the envelope's deserialization failure
(surfaced through the `Http` constructor as a decode error); and in either
case the operation never returns a successful result. -/
theorem error_envelope_on_non_success (resp : HttpResponse)
    (h : isSuccessStatus resp.status = false) :
    (∀ code msg,
      ErrorResponse.deserialize resp.body = .ok ⟨code, msg⟩ →
      UnifiClient.list_sites_response resp = .error (.Api code msg) ∧
      UnifiClient.list_devices_response resp = .error (.Api code msg) ∧
      UnifiClient.get_device_details_response resp = .error (.Api code msg) ∧
      UnifiClient.get_device_statistics_response resp = .error (.Api code msg) ∧
      UnifiClient.restart_device_response resp = .error (.Api code msg) ∧
      UnifiClient.get_info_response resp = .error (.Api code msg) ∧
      UnifiClient.list_clients_response resp = .error (.Api code msg)) ∧
    (∀ e,
      ErrorResponse.deserialize resp.body = .error e →
      UnifiClient.list_sites_response resp = .error (.Http (.decode e)) ∧
      UnifiClient.list_devices_response resp = .error (.Http (.decode e)) ∧
      UnifiClient.get_device_details_response resp = .error (.Http (.decode e)) ∧
      UnifiClient.get_device_statistics_response resp = .error (.Http (.decode e)) ∧
      UnifiClient.restart_device_response resp = .error (.Http (.decode e)) ∧
      UnifiClient.get_info_response resp = .error (.Http (.decode e)) ∧
      UnifiClient.list_clients_response resp = .error (.Http (.decode e))) ∧
    (exceptOk (UnifiClient.list_sites_response resp) = false ∧
     exceptOk (UnifiClient.list_devices_response resp) = false ∧
     exceptOk (UnifiClient.get_device_details_response resp) = false ∧
     exceptOk (UnifiClient.get_device_statistics_response resp) = false ∧
     exceptOk (UnifiClient.restart_device_response resp) = false ∧
     exceptOk (UnifiClient.get_info_response resp) = false ∧
     exceptOk (UnifiClient.list_clients_response resp) = false) := by
  refine ⟨?_, ?_, ?_⟩
  · intro code msg hdec
    refine ⟨?_, ?_, ?_, ?_, ?_, ?_, ?_⟩ <;>
      simp [UnifiClient.list_sites_response, UnifiClient.list_devices_response,
            UnifiClient.get_device_details_response,
            UnifiClient.get_device_statistics_response,
            UnifiClient.restart_device_response, UnifiClient.get_info_response,
            UnifiClient.list_clients_response, h, hdec]
  · intro e hdec
    refine ⟨?_, ?_, ?_, ?_, ?_, ?_, ?_⟩ <;>
      simp [UnifiClient.list_sites_response, UnifiClient.list_devices_response,
            UnifiClient.get_device_details_response,
            UnifiClient.get_device_statistics_response,
            UnifiClient.restart_device_response, UnifiClient.get_info_response,
            UnifiClient.list_clients_response, h, hdec]
  · cases hdec : ErrorResponse.deserialize resp.body <;>
      refine ⟨?_, ?_, ?_, ?_, ?_, ?_, ?_⟩ <;>
      simp [UnifiClient.list_sites_response, UnifiClient.list_devices_response,
            UnifiClient.get_device_details_response,
            UnifiClient.get_device_statistics_response,
            UnifiClient.restart_device_response, UnifiClient.get_info_response,
            UnifiClient.list_clients_response, h, hdec, exceptOk]

/-- Witness for C1: a 401 response carrying the sample envelope maps
`list_sites` to the `Api` error with exactly the envelope's contents, and
a 500 response with a non-envelope body maps `get_info` to the
`Http`-wrapped decode failure; neither is a success. -/
theorem error_envelope_on_non_success_witness :
    isSuccessStatus 401 = false ∧
    UnifiClient.list_sites_response { status := 401, body := envelopeJson } =
      .error (.Api 401 "Unauthorized access") ∧
    UnifiClient.get_info_response { status := 500, body := .str "oops" } =
      .error (.Http (.decode "invalid type: expected a map")) ∧
    exceptOk (UnifiClient.restart_device_response
      { status := 500, body := .str "oops" }) = false :=
  ⟨by decide,
   ((error_envelope_on_non_success { status := 401, body := envelopeJson }
        (by decide)).1 401 "Unauthorized access" (by decide)).1,
   (((error_envelope_on_non_success { status := 500, body := .str "oops" }
        (by decide)).2.1 "invalid type: expected a map" (by decide)).2.2.2.2.2.1),
   ((error_envelope_on_non_success { status := 500, body := .str "oops" }
        (by decide)).2.2.2.2.2.2.1)⟩
